import Mathlib

/-!
Verification of the payload-mcp-server authentication subsystem.

This file gives a shallow embedding, in Lean, of the Python code in
`payload_mcp/auth_manager.py`, `payload_mcp/auth_server.py` and the query
construction helpers of `payload_mcp/client.py`, and proves properties of it.

Modelling conventions:
- Python `datetime` values and timestamps are modelled as `Int` seconds
  (`timedelta(minutes=5)` is `300`, `timedelta(hours=1)` is `3600`,
  `datetime.now()` is an explicit `now : Int` argument).
- Python values appearing in JSON-ish dictionaries are modelled by `PyVal`;
  Python `dict`s become association lists in insertion order (iteration order
  of a Python dict is insertion order, and every key occurs once).
- The outcome of the one outbound HTTP request made by `login` is an explicit
  input (`HttpOutcome`), covering the httpx exception cases and a response.
- Raising an exception is modelled with `Except`; the error value carries the
  mutable state as it is at the moment of the raise, so that mutations made
  before an exception persist, exactly as in Python.
- Registered auth callbacks are opaque: each is a `Callback` with an identity
  and a flag saying whether invoking it raises.  Invocations performed are
  returned as an explicit list of (callback id, token argument) pairs.
-/

namespace PayloadMcp

/-- Model of a Python value as used in the JSON-ish dictionaries that the
client's query construction walks over (`where`, `select`, `populate`,
`joins` arguments and the parameter dictionary handed to httpx). -/
inductive PyVal where
  | pyStr (s : String)
  | pyInt (n : Int)
  | pyBool (b : Bool)
  | pyList (xs : List PyVal)
  | pyDict (kvs : List (String × PyVal))
deriving Repr, Inhabited

/-- An observer registered through `AuthManager.add_auth_callback`.  `id`
identifies it; `throws` says whether calling it raises an exception. -/
structure Callback where
  id : Nat
  throws : Bool
deriving Repr, DecidableEq

/-- The mutable fields of `AuthManager` (auth_manager.py, `__init__`):
`auth_token`, `token_expiry`, `credentials`, `auth_callbacks`,
`browser_auth_in_progress`, the internal flag of `browser_auth_event`
(an `asyncio.Event` is set or not set), whether `_event_loop` holds the
waiter's running loop, and `collection_slug`. -/
structure AuthState where
  authToken : Option String
  tokenExpiry : Option Int
  credentials : Option (String × String)
  authCallbacks : List Callback
  browserAuthInProgress : Bool
  browserAuthEventSet : Bool
  eventLoopRecorded : Bool
  collectionSlug : String
deriving Repr, DecidableEq

/-- Python truthiness of an `Optional[str]`: `bool(None)` and `bool("")` are
`False`, any non-empty string is `True`. -/
def py_truthy_opt_str : Option String → Bool
  | none => false
  | some t => !(t == "")

/-- `AuthManager.is_token_expired` (auth_manager.py lines 194-202): if
`token_expiry` is `None` the token is assumed valid; otherwise the token
counts as expired from five minutes before the recorded expiry. -/
def is_token_expired (now : Int) (s : AuthState) : Bool :=
  match s.tokenExpiry with
  | none => false
  | some e => decide (now ≥ e - 300)

/-- `AuthManager.ensure_valid_token` (auth_manager.py lines 204-211): the body
is the single statement `return bool(self.auth_token)`.  The state component
of the result records that the method mutates nothing. -/
def ensure_valid_token (s : AuthState) : Bool × AuthState :=
  (py_truthy_opt_str s.authToken, s)

/-- `AuthManager.set_credentials` (auth_manager.py lines 78-84). -/
def set_credentials (s : AuthState) (email password : String) : AuthState :=
  { s with credentials := some (email, password) }

/-- `AuthManager.clear_credentials` (auth_manager.py lines 86-89). -/
def clear_credentials (s : AuthState) : AuthState :=
  { s with credentials := none }

/-- `AuthManager.add_auth_callback` (auth_manager.py lines 35-37): appends the
callback to the registration list. -/
def add_auth_callback (s : AuthState) (c : Callback) : AuthState :=
  { s with authCallbacks := s.authCallbacks ++ [c] }

/-- `AuthManager.start_browser_auth` (auth_manager.py lines 252-299).  The two
Booleans are the outcomes of the external actions `auth_server.start()` and
`auth_server.open_browser()`. -/
def start_browser_auth (s : AuthState) (serverStartOk openBrowserOk : Bool) :
    Bool × AuthState :=
  if s.browserAuthInProgress then
    (false, s)
  else
    let s1 : AuthState :=
      { s with browserAuthInProgress := true, browserAuthEventSet := false }
    if !serverStartOk then
      (false, { s1 with browserAuthInProgress := false })
    else if !openBrowserOk then
      (false, { s1 with browserAuthInProgress := false })
    else
      (true, s1)

/-- Outcome of the suspension `await asyncio.wait_for(event.wait(), timeout)`
inside `wait_for_browser_auth`: the event was signaled before the timeout, the
timeout elapsed (`asyncio.TimeoutError`), or some other `Exception` was
raised while suspended. -/
inductive WaitOutcome where
  | signaled
  | timedOut
  | failed
deriving Repr, DecidableEq

/-- `AuthManager.wait_for_browser_auth` (auth_manager.py lines 301-337).
`hasRunningLoop` is whether `asyncio.get_running_loop()` succeeds; the method
first records the loop in `_event_loop`, then checks the already-signaled
fast path, then the no-active-flow fast path, and otherwise suspends with the
given `WaitOutcome`.  Both the `asyncio.TimeoutError` handler and the generic
`Exception` handler set `browser_auth_in_progress = False` and return
`False`. -/
def wait_for_browser_auth (s : AuthState) (hasRunningLoop : Bool)
    (outcome : WaitOutcome) : Bool × AuthState :=
  let s1 : AuthState := { s with eventLoopRecorded := hasRunningLoop }
  if s1.browserAuthEventSet then
    (true, s1)
  else if !s1.browserAuthInProgress then
    (false, s1)
  else
    match outcome with
    | .signaled => (true, s1)
    | .timedOut => (false, { s1 with browserAuthInProgress := false })
    | .failed => (false, { s1 with browserAuthInProgress := false })

/-! ### Cross-context completion signaling

`AuthManager._signal_browser_auth_completed` (auth_manager.py lines 50-76)
delivers the completion signal.  Its inner closure `_set_event` sets the
`asyncio.Event` if it is not yet set and clears `browser_auth_in_progress`.
When `_event_loop` holds a recorded, running loop, the closure is handed to
`loop.call_soon_threadsafe`, i.e. enqueued on the waiter's own event loop to
be executed there; otherwise it runs directly in the calling context.  We
model the waiter's loop as the event flags plus a queue of not-yet-executed
`_set_event` closures; the loop executing its scheduled callbacks is
`run_pending`, and the suspended waiter's `event.wait()` returns exactly when
the event flag is set in its loop. -/

/-- State shared through the completion event: the `asyncio.Event`'s internal
flag and `browser_auth_in_progress`. -/
structure EventState where
  eventSet : Bool
  inProgress : Bool
deriving Repr, DecidableEq

/-- The closure `_set_event` inside `_signal_browser_auth_completed`:
`if not self.browser_auth_event.is_set(): self.browser_auth_event.set()`
followed by `self.browser_auth_in_progress = False`. -/
def set_event (e : EventState) : EventState :=
  let e1 := if e.eventSet then e else { e with eventSet := true }
  { e1 with inProgress := false }

/-- The waiter's event loop: the shared event flags together with the number
of `_set_event` closures scheduled onto it via `call_soon_threadsafe` that it
has not yet executed. -/
structure LoopState where
  ev : EventState
  pendingCalls : Nat
deriving Repr, DecidableEq

/-- `AuthManager._signal_browser_auth_completed`: when a running waiter loop
was recorded in `_event_loop`, the `_set_event` closure is enqueued on that
loop with `call_soon_threadsafe`; otherwise `_set_event` runs directly in the
calling context. -/
def signal_browser_auth_completed (loopRecordedAndRunning : Bool)
    (s : LoopState) : LoopState :=
  if loopRecordedAndRunning then
    { s with pendingCalls := s.pendingCalls + 1 }
  else
    { s with ev := set_event s.ev }

/-- Execute `n` scheduled `_set_event` closures in order on the waiter's
loop. -/
def apply_pending : Nat → EventState → EventState
  | 0, e => e
  | n + 1, e => apply_pending n (set_event e)

/-- The waiter's event loop running every callback scheduled onto it. -/
def run_pending (s : LoopState) : LoopState :=
  { ev := apply_pending s.pendingCalls s.ev, pendingCalls := 0 }

/-- Whether the waiter suspended in `browser_auth_event.wait()` has been
woken: `asyncio.Event.wait()` returns exactly when the event's flag is
set in the waiter's loop. -/
def waiter_woken (s : LoopState) : Bool :=
  s.ev.eventSet

/-! ### The login operation -/

/-- Exception classes that the modelled code can raise.
`authenticationError` is `AuthenticationError` from exceptions.py;
`connectionError` is the `ConnectionError` class from exceptions.py (the
spec's `ConnectionFailure`); `jsonDecodeError` is `json.JSONDecodeError`,
raised by `response.json()` on an unparseable body. -/
inductive PyExc where
  | authenticationError (msg : String)
  | connectionError (msg : String)
  | jsonDecodeError (msg : String)
deriving Repr, DecidableEq

/-- The string representation (`str(e)`) of a raised exception: its message. -/
def exc_str : PyExc → String
  | .authenticationError m => m
  | .connectionError m => m
  | .jsonDecodeError m => m

/-- Whether a raised exception is an instance of the `ConnectionError` class
(the spec's `ConnectionFailure`). -/
def is_connection_failure : PyExc → Bool
  | .connectionError _ => true
  | _ => false

/-- The HTTP response received by `login`, as the code reads it:
`status` is `response.status_code`; `bodyParses` is whether
`response.json()` succeeds; `token`, `user`, `exp` and `message` are the
values that `data.get("token")`, `data.get("user", {})`, `data.get("exp")`
and `error_data.get("message")` would return on the parsed body
(`none` when the key is absent); `expParses` is whether
`datetime.fromtimestamp(exp)` succeeds on the `exp` value. -/
structure LoginResponse where
  status : Nat
  bodyParses : Bool
  token : Option String
  user : PyVal
  exp : Option Int
  expParses : Bool
  message : Option String
deriving Repr

/-- Outcome of the one outbound HTTP request issued by `login`: one of the
three httpx exception classes that the code catches, or a response. -/
inductive HttpOutcome where
  | connectError (msg : String)
  | timeoutError (msg : String)
  | httpError (msg : String)
  | response (r : LoginResponse)
deriving Repr

/-- `AuthManager._notify_auth_renewed` (auth_manager.py lines 39-48), the
callback loop only: each registered callback is invoked, in registration
order, with the new token; an invocation that raises is caught by the
per-callback `except Exception` handler, which logs the error, so the loop
continues with the next callback either way.  The returned list records the
invocations performed. -/
def notify_auth_renewed (cbs : List Callback) (newToken : String) :
    List (Nat × String) :=
  match cbs with
  | [] => []
  | c :: rest =>
    if c.throws then
      (c.id, newToken) :: notify_auth_renewed rest newToken
    else
      (c.id, newToken) :: notify_auth_renewed rest newToken

/-- A successful result of `login`: the returned dictionary (`token`, `user`,
`expires_at`, the latter modelled as the expiry timestamp it is the
isoformat of), the state after the call, the list of callback invocations
performed by `_notify_auth_renewed`, and whether
`_signal_browser_auth_completed` was invoked afterwards. -/
structure LoginOk where
  token : String
  user : PyVal
  expiresAt : Option Int
  state : AuthState
  invocations : List (Nat × String)
  signalSent : Bool
deriving Repr

/-- The expiry computed by `login` (auth_manager.py lines 142-151): Python
tests `if exp:`, so a missing `exp`, and also `exp = 0` (falsy), fall to the
default `now + 1 hour`; a truthy `exp` that `datetime.fromtimestamp` cannot
parse also falls to the default. -/
def login_expiry (now : Int) (exp : Option Int) (expParses : Bool) : Int :=
  match exp with
  | none => now + 3600
  | some e =>
    if e ≠ 0 then
      if expParses then e else now + 3600
    else
      now + 3600

/-- `AuthManager.login` (auth_manager.py lines 103-176).  On a 200 response
whose body parses and carries a truthy `token`, it stores the token and the
credential pair, computes the expiry, notifies the registered callbacks and
signals browser-auth completion, and returns the result dictionary.  A 200
response with a falsy token raises `AuthenticationError` (this raise is not
caught by the `except httpx...` clauses).  A non-200 response raises
`AuthenticationError` carrying the server's `message` field when the body
parses and has one, else a default naming the status.  The three caught
httpx exception classes are each re-raised as `AuthenticationError` with a
prefixed message.  Error values carry the state at the raise, which is the
entry state: no mutation precedes any raise. -/
def login (s : AuthState) (now : Int) (email password : String)
    (out : HttpOutcome) : Except (PyExc × AuthState) LoginOk :=
  match out with
  | .connectError m =>
    .error (.authenticationError
      ("Failed to connect to authentication server: " ++ m), s)
  | .timeoutError m =>
    .error (.authenticationError ("Authentication request timeout: " ++ m), s)
  | .httpError m =>
    .error (.authenticationError ("HTTP error during authentication: " ++ m), s)
  | .response r =>
    if r.status = 200 then
      if !r.bodyParses then
        .error (.jsonDecodeError "Expecting value", s)
      else if !(py_truthy_opt_str r.token) then
        .error (.authenticationError "No token received from login response", s)
      else
        let t := r.token.getD ""
        let expiry := login_expiry now r.exp r.expParses
        let s1 : AuthState :=
          { s with authToken := some t,
                   credentials := some (email, password),
                   tokenExpiry := some expiry }
        .ok { token := t, user := r.user, expiresAt := some expiry,
              state := s1,
              invocations := notify_auth_renewed s.authCallbacks t,
              signalSent := true }
    else
      let defaultMsg := "Login failed with status " ++ toString r.status
      let msg :=
        if r.bodyParses then
          match r.message with
          | some m => m
          | none => defaultMsg
        else defaultMsg
      .error (.authenticationError ("Login failed: " ++ msg), s)

/-- `AuthManager._login_with_stored_credentials` (auth_manager.py lines
178-192).  The third component counts login attempts, i.e. outbound network
authentication requests, made by the call. -/
def login_with_stored_credentials (s : AuthState) (now : Int)
    (out : HttpOutcome) : Bool × AuthState × Nat :=
  match s.credentials with
  | none => (false, s, 0)
  | some (email, password) =>
    match login s now email password out with
    | .ok r => (true, r.state, 1)
    | .error (_, s1) => (false, clear_credentials s1, 1)

/-! ### The local auth endpoint's POST /login handler -/

/-- The body of a POST /login request as `_handle_login` reads it: either
reading and parsing the form data raises (missing/invalid `Content-Length`,
undecodable body, ...), or it yields the first values of the `email`,
`password` and `collection` fields (`""` when `email`/`password` is absent,
`"users"` when `collection` is absent). -/
inductive PostInput where
  | malformed (excMsg : String)
  | form (email password collection : String)
deriving Repr

/-- A JSON response body `{success, message}` as sent by
`_send_json_response`. -/
structure JsonResp where
  success : Bool
  message : String
deriving Repr, DecidableEq

/-- The collection-slug update at auth_server.py lines 213-215: before the
login, the handler overwrites `auth_manager.collection_slug` when the
submitted collection differs. -/
def update_collection_slug (s : AuthState) (collection : String) : AuthState :=
  if s.collectionSlug ≠ collection then
    { s with collectionSlug := collection }
  else s

/-- The body of the `try` block of `AuthHandler._handle_login`
(auth_server.py lines 194-232).  An error value is a raised exception
(its message, plus the state at the raise); `hasAuthManager` is whether the
class-level `auth_manager` is set.  On a successful login the handler also
invokes `auth_callback`; that callback (set by `start_browser_auth`) only
logs and re-signals completion, so it is covered by `signalSent` of the
login result. -/
def handle_login_inner (st : AuthState) (hasAuthManager : Bool)
    (inp : PostInput) (now : Int) (loginOut : HttpOutcome) :
    Except (String × AuthState) (JsonResp × AuthState) :=
  match inp with
  | .malformed excMsg => .error (excMsg, st)
  | .form email password collection =>
    if email = "" ∨ password = "" then
      .ok ({ success := false, message := "Email and password are required" },
           st)
    else if hasAuthManager then
      let st1 := update_collection_slug st collection
      match login st1 now email password loginOut with
      | .ok r =>
        .ok ({ success := true, message := "Authentication successful" },
             r.state)
      | .error (e, s1) => .error (exc_str e, s1)
    else
      .ok ({ success := false,
             message := "Authentication manager not available" }, st)

/-- `AuthHandler._handle_login` (auth_server.py lines 192-239): the whole
body is wrapped in `try ... except Exception`, whose handler logs the error
and replies with the JSON body `{success: False, message: "Login error: "
+ str(e)}`.  The handler therefore always produces a JSON response. -/
def handle_login (st : AuthState) (hasAuthManager : Bool) (inp : PostInput)
    (now : Int) (loginOut : HttpOutcome) : JsonResp × AuthState :=
  match handle_login_inner st hasAuthManager inp now loginOut with
  | .ok res => res
  | .error (m, s1) =>
    ({ success := false, message := "Login error: " ++ m }, s1)

/-! ### Query parameter construction in the client -/

/-- `isinstance(v, (list, dict))` — the test `_build_where_params` applies to
operator values to decide JSON-encoding them. -/
def is_complex_val : PyVal → Bool
  | .pyList _ => true
  | .pyDict _ => true
  | _ => false

/-- Escaping of one character inside a JSON string literal (model of what
`json.dumps` does to string content; only the quote and backslash cases
matter here). -/
def json_escape_char (c : Char) : String :=
  if c = '"' then "\\\"" else if c = '\\' then "\\\\" else String.singleton c

/-- Escaping of JSON string content. -/
def json_escape (s : String) : String :=
  String.join (s.toList.map json_escape_char)

mutual

/-- Model of Python `json.dumps` on a `PyVal`, with `json.dumps`'s default
separators. -/
def jsonDumps : PyVal → String
  | .pyStr s => "\"" ++ json_escape s ++ "\""
  | .pyInt n => toString n
  | .pyBool b => if b then "true" else "false"
  | .pyList xs => "[" ++ jsonDumpsList xs ++ "]"
  | .pyDict kvs => "\x7b" ++ jsonDumpsDict kvs ++ "\x7d"

/-- Comma-separated encoding of a JSON array's elements. -/
def jsonDumpsList : List PyVal → String
  | [] => ""
  | [x] => jsonDumps x
  | x :: y :: rest => jsonDumps x ++ ", " ++ jsonDumpsList (y :: rest)

/-- Comma-separated encoding of a JSON object's entries. -/
def jsonDumpsDict : List (String × PyVal) → String
  | [] => ""
  | [(k, v)] => "\"" ++ json_escape k ++ "\": " ++ jsonDumps v
  | (k, v) :: x :: rest =>
    "\"" ++ json_escape k ++ "\": " ++ jsonDumps v ++ ", " ++
      jsonDumpsDict (x :: rest)

end

/-- `PayloadClient._build_where_params` (client.py lines 356-378).  The
parameter dictionary is an association list extended in assignment order;
every key the builder writes is fresh, so appending models the dict
assignment.  A dict-valued entry contributes one parameter per operator,
with complex (list/dict) operator values JSON-encoded; any other entry
becomes an `[equals]` parameter. -/
def build_where_params (whereClause : List (String × PyVal))
    (params : List (String × PyVal)) (pre : String) :
    List (String × PyVal) :=
  match whereClause with
  | [] => params
  | (field, .pyDict ops) :: rest =>
    build_where_params rest
      (ops.foldl (fun ps p =>
        ps ++ [(pre ++ "[" ++ field ++ "][" ++ p.1 ++ "]",
                if is_complex_val p.2 then PyVal.pyStr (jsonDumps p.2)
                else p.2)]) params) pre
  | (field, v) :: rest =>
    build_where_params rest
      (params ++ [(pre ++ "[" ++ field ++ "][equals]", v)]) pre

/-- The conversion `str(v).lower() if isinstance(v, bool) else v` applied by
`_build_nested_params` to the values it writes. -/
def lower_bool_str (v : PyVal) : PyVal :=
  match v with
  | .pyBool b => .pyStr (if b then "true" else "false")
  | v => v

/-- `PayloadClient._build_nested_params` (client.py lines 380-398): dict
values contribute one `type[key][nested]` parameter per nested entry, other
values one `type[key]` parameter, with Booleans rendered as the lowercase
strings. -/
def build_nested_params (nested : List (String × PyVal)) (paramType : String)
    (params : List (String × PyVal)) : List (String × PyVal) :=
  match nested with
  | [] => params
  | (key, .pyDict nkvs) :: rest =>
    build_nested_params rest paramType
      (nkvs.foldl (fun ps p =>
        ps ++ [(paramType ++ "[" ++ key ++ "][" ++ p.1 ++ "]",
                lower_bool_str p.2)]) params)
  | (key, v) :: rest =>
    build_nested_params rest paramType
      (params ++ [(paramType ++ "[" ++ key ++ "]", lower_bool_str v)])

/-- Statement of the spec's flattening rule for one `where` entry, written
from the spec's words for comparison with `build_where_params`:
`{field: {op: value}}` flattens to `where[field][op]=value` (complex values
JSON-encoded) and a bare `{field: value}` to `where[field][equals]=value`. -/
def spec_where_flatten (pre : String) (entry : String × PyVal) :
    List (String × PyVal) :=
  match entry with
  | (field, .pyDict ops) =>
    ops.map (fun p =>
      (pre ++ "[" ++ field ++ "][" ++ p.1 ++ "]",
       if is_complex_val p.2 then PyVal.pyStr (jsonDumps p.2) else p.2))
  | (field, v) => [(pre ++ "[" ++ field ++ "][equals]", v)]

/-- Statement of the spec's flattening rule for one selection/population
entry, written from the spec's words for comparison with
`build_nested_params`: a map value flattens to `select[field][nested]=value`
per nested entry, a plain value to `select[field]=value`, Booleans as
lowercase strings. -/
def spec_nested_flatten (paramType : String) (entry : String × PyVal) :
    List (String × PyVal) :=
  match entry with
  | (key, .pyDict nkvs) =>
    nkvs.map (fun p =>
      (paramType ++ "[" ++ key ++ "][" ++ p.1 ++ "]", lower_bool_str p.2))
  | (key, v) => [(paramType ++ "[" ++ key ++ "]", lower_bool_str v)]

/-- Modelled from the spec: the final rendering of one parameter value into
the outgoing query string is performed by the external httpx library, which
is not part of this repository; the spec's outbound-interface section states
that booleans render as the lowercase strings `true`/`false`, other
primitives as their usual string form. -/
def render_param_value : PyVal → String
  | .pyBool b => if b then "true" else "false"
  | .pyStr s => s
  | .pyInt n => toString n
  | v => jsonDumps v

/-! ### Concrete states used as evaluation points -/

/-- A fresh `AuthManager` built from a default configuration: no token, no
expiry, no credentials, no callbacks, no flow in progress. -/
def sampleState : AuthState :=
  { authToken := none, tokenExpiry := none, credentials := none,
    authCallbacks := [], browserAuthInProgress := false,
    browserAuthEventSet := false, eventLoopRecorded := false,
    collectionSlug := "users" }

/-- A concrete 200 login response whose `exp` claim is present, parseable,
and equal to 0. -/
def respExpZero : LoginResponse :=
  { status := 200, bodyParses := true, token := some "T",
    user := .pyDict [], exp := some 0, expParses := true, message := none }

/-- A concrete successful 200 login response with a nonzero `exp` claim. -/
def respOk : LoginResponse :=
  { status := 200, bodyParses := true, token := some "T",
    user := .pyDict [], exp := some 9999, expParses := true, message := none }

/-- A concrete 401 response with a parseable body carrying a message. -/
def resp401 : LoginResponse :=
  { status := 401, bodyParses := true, token := none,
    user := .pyDict [], exp := none, expParses := true,
    message := some "Invalid email or password" }

/-! ## Helper lemmas -/

/-- The `_set_event` closure always leaves the event set and the in-progress
flag cleared, whatever the starting flags. -/
theorem set_event_sets (e : EventState) :
    set_event e = { eventSet := true, inProgress := false } := by
  cases e with
  | mk es ip => cases es <;> rfl

/-- The callback loop of `_notify_auth_renewed` invokes every registered
callback exactly once, in registration order, whether or not any of them
raises. -/
theorem notify_auth_renewed_eq_map (cbs : List Callback) (t : String) :
    notify_auth_renewed cbs t = cbs.map (fun c => (c.id, t)) := by
  induction cbs with
  | nil => rfl
  | cons c rest ih => cases hc : c.throws <;> simp [notify_auth_renewed, hc, ih]

/-- No mutation of the manager's state precedes any raise inside `login`:
whenever `login` raises, the state carried by the exception is the entry
state. -/
theorem login_error_eq_state (s : AuthState) (now : Int)
    (email password : String) (out : HttpOutcome) (exc : PyExc)
    (s1 : AuthState) (h : login s now email password out = .error (exc, s1)) :
    s1 = s := by
  cases out with
  | connectError m => simp [login] at h; exact h.2.symm
  | timeoutError m => simp [login] at h; exact h.2.symm
  | httpError m => simp [login] at h; exact h.2.symm
  | response r =>
    simp only [login] at h
    split at h
    · split at h
      · simp at h; exact h.2.symm
      · split at h
        · simp at h; exact h.2.symm
        · simp at h
    · simp at h; exact h.2.symm

/-- Folding assignments of fresh keys into the parameter dictionary appends
the mapped entries in order. -/
theorem foldl_append_singleton {α β : Type} (f : α → β) (l : List α)
    (init : List β) :
    l.foldl (fun ps x => ps ++ [f x]) init = init ++ l.map f := by
  induction l generalizing init with
  | nil => simp
  | cons x rest ih => simp [List.foldl_cons, ih, List.append_assoc]

/-- The collection-slug update touches no field other than
`collection_slug`. -/
theorem update_collection_slug_browserAuthInProgress (s : AuthState)
    (c : String) :
    (update_collection_slug s c).browserAuthInProgress
      = s.browserAuthInProgress := by
  unfold update_collection_slug; split <;> rfl

/-- `build_where_params` appends, to the incoming parameter dictionary, the
per-entry flattening of each `where` entry in order. -/
theorem build_where_params_eq (w : List (String × PyVal))
    (params : List (String × PyVal)) (pre : String) :
    build_where_params w params pre
      = params ++ (w.map (spec_where_flatten pre)).flatten := by
  induction w generalizing params with
  | nil => simp [build_where_params]
  | cons entry rest ih =>
    obtain ⟨field, v⟩ := entry
    cases v with
    | pyDict ops =>
      simp [build_where_params, spec_where_flatten, ih,
        foldl_append_singleton, List.append_assoc]
    | pyStr s => simp [build_where_params, spec_where_flatten, ih]
    | pyInt n => simp [build_where_params, spec_where_flatten, ih]
    | pyBool b => simp [build_where_params, spec_where_flatten, ih]
    | pyList xs => simp [build_where_params, spec_where_flatten, ih]

/-- `build_nested_params` appends, to the incoming parameter dictionary, the
per-entry flattening of each selection/population entry in order. -/
theorem build_nested_params_eq (nested : List (String × PyVal))
    (paramType : String) (params : List (String × PyVal)) :
    build_nested_params nested paramType params
      = params ++ (nested.map (spec_nested_flatten paramType)).flatten := by
  induction nested generalizing params with
  | nil => simp [build_nested_params]
  | cons entry rest ih =>
    obtain ⟨key, v⟩ := entry
    cases v with
    | pyDict nkvs =>
      simp [build_nested_params, spec_nested_flatten, ih,
        foldl_append_singleton, List.append_assoc]
    | pyStr s => simp [build_nested_params, spec_nested_flatten, ih]
    | pyInt n => simp [build_nested_params, spec_nested_flatten, ih]
    | pyBool b => simp [build_nested_params, spec_nested_flatten, ih]
    | pyList xs => simp [build_nested_params, spec_nested_flatten, ih]

/-! ## The claims -/

/-- C1: when one context is suspended in `wait_for_browser_auth` — so its
running loop is recorded in `_event_loop`, the event is not yet set, and no
closure is queued — and completion is signaled from a different execution
context, exactly one `_set_event` closure crosses the context boundary via
`call_soon_threadsafe`; once the waiter's loop runs it, the event is set (the
waiter is woken, no missed wakeup) and the in-progress flag is cleared.  A
second delivery onto the already-signaled event changes neither the state nor
the waiter's result, and the `_set_event` closure itself is idempotent. -/
theorem C1_cross_context_signal_once (s : LoopState)
    (hwaiting : s.ev.eventSet = false) (hqueue : s.pendingCalls = 0) :
    (signal_browser_auth_completed true s).pendingCalls = 1 ∧
    waiter_woken (run_pending (signal_browser_auth_completed true s)) = true ∧
    (run_pending (signal_browser_auth_completed true s)).ev.inProgress
      = false ∧
    run_pending (signal_browser_auth_completed true
        (run_pending (signal_browser_auth_completed true s)))
      = run_pending (signal_browser_auth_completed true s) ∧
    waiter_woken (run_pending (signal_browser_auth_completed true
        (run_pending (signal_browser_auth_completed true s))))
      = waiter_woken (run_pending (signal_browser_auth_completed true s)) ∧
    set_event (set_event s.ev) = set_event s.ev := by
  obtain ⟨⟨es, ip⟩, pc⟩ := s
  dsimp only at hwaiting hqueue
  subst hwaiting; subst hqueue
  exact ⟨rfl, rfl, rfl, rfl, rfl, rfl⟩

theorem C1_cross_context_signal_once_witness :
    waiter_woken (run_pending (signal_browser_auth_completed true
        { ev := { eventSet := false, inProgress := true },
          pendingCalls := 0 })) = true :=
  (C1_cross_context_signal_once
    { ev := { eventSet := false, inProgress := true }, pendingCalls := 0 }
    rfl rfl).2.1

/-- C2: `wait_for_browser_auth` returns true immediately when the event is
already set; returns false immediately when no flow is active and nothing is
signaled; and on a timeout, or on any unexpected failure while suspended
(both are caught, so no exception propagates), returns false and clears the
in-progress flag, so that a subsequent `start_browser_auth` is not rejected
as already active. -/
theorem C2_wait_for_completion_contract (s : AuthState) (hasLoop : Bool)
    (o : WaitOutcome) :
    (s.browserAuthEventSet = true →
      wait_for_browser_auth s hasLoop o
        = (true, { s with eventLoopRecorded := hasLoop })) ∧
    (s.browserAuthEventSet = false → s.browserAuthInProgress = false →
      wait_for_browser_auth s hasLoop o
        = (false, { s with eventLoopRecorded := hasLoop })) ∧
    (s.browserAuthEventSet = false → s.browserAuthInProgress = true →
      (o = .timedOut ∨ o = .failed) →
      (wait_for_browser_auth s hasLoop o).1 = false ∧
      (wait_for_browser_auth s hasLoop o).2.browserAuthInProgress = false ∧
      (start_browser_auth (wait_for_browser_auth s hasLoop o).2 true true).1
        = true) := by
  refine ⟨fun h1 => ?_, fun h1 h2 => ?_, fun h1 h2 h3 => ?_⟩
  · simp [wait_for_browser_auth, h1]
  · simp [wait_for_browser_auth, h1, h2]
  · rcases h3 with h3 | h3 <;> subst h3 <;>
      simp [wait_for_browser_auth, start_browser_auth, h1, h2]

theorem C2_wait_for_completion_contract_witness :
    wait_for_browser_auth { sampleState with browserAuthEventSet := true }
        true .timedOut
      = (true, { sampleState with
                 browserAuthEventSet := true,
                 eventLoopRecorded := true }) ∧
    (wait_for_browser_auth { sampleState with browserAuthInProgress := true }
        false .timedOut).2.browserAuthInProgress = false ∧
    (start_browser_auth
        (wait_for_browser_auth
          { sampleState with browserAuthInProgress := true }
          false .timedOut).2 true true).1 = true :=
  ⟨(C2_wait_for_completion_contract
      { sampleState with browserAuthEventSet := true } true .timedOut).1 rfl,
    ((C2_wait_for_completion_contract
      { sampleState with browserAuthInProgress := true } false
      .timedOut).2.2 rfl rfl (Or.inl rfl)).2.1,
    ((C2_wait_for_completion_contract
      { sampleState with browserAuthInProgress := true } false
      .timedOut).2.2 rfl rfl (Or.inl rfl)).2.2⟩

/-- C3: `is_token_expired` is a pure function of the token state: with an
expiry set it is true exactly when `now ≥ expiry - 5 minutes` — true at the
boundary `now = expiry - 5 minutes` — and with no expiry set it is false,
whatever the token is. -/
theorem C3_is_token_expired_pure (now : Int) (s : AuthState) :
    (∀ e : Int, s.tokenExpiry = some e →
      (is_token_expired now s = true ↔ now ≥ e - 300)) ∧
    (s.tokenExpiry = none → is_token_expired now s = false) ∧
    (∀ e : Int, s.tokenExpiry = some e → now = e - 300 →
      is_token_expired now s = true) ∧
    (∀ t : Option String,
      is_token_expired now { s with authToken := t }
        = is_token_expired now s) := by
  refine ⟨fun e he => ?_, fun h => ?_, fun e he hb => ?_, fun t => rfl⟩
  · simp [is_token_expired, he]
  · simp [is_token_expired, h]
  · subst hb
    simp [is_token_expired, he]

theorem C3_is_token_expired_pure_witness :
    is_token_expired 700 { sampleState with tokenExpiry := some 1000 }
      = true ∧
    is_token_expired 0 sampleState = false :=
  ⟨((C3_is_token_expired_pure 700
      { sampleState with tokenExpiry := some 1000 }).1 1000 rfl).mpr
      (by norm_num),
    (C3_is_token_expired_pure 0 sampleState).2.1 rfl⟩

/-- C4: at most one browser-auth flow is pending at a time: whenever a flow
is already in progress, `start_browser_auth` returns failure and the
resulting state is exactly the entry state, so the pending flow's event
flag, in-progress flag and token state are untouched by the rejected
call. -/
theorem C4_start_flow_at_most_one (s : AuthState)
    (serverStartOk openBrowserOk : Bool)
    (h : s.browserAuthInProgress = true) :
    start_browser_auth s serverStartOk openBrowserOk = (false, s) := by
  simp [start_browser_auth, h]

theorem C4_start_flow_at_most_one_witness :
    start_browser_auth { sampleState with browserAuthInProgress := true }
        true true
      = (false, { sampleState with browserAuthInProgress := true }) :=
  C4_start_flow_at_most_one
    { sampleState with browserAuthInProgress := true } true true rfl

/-- C5 (counterexample): on a transport failure (`httpx.ConnectError`),
`login` raises `AuthenticationError` — not an instance of the
`ConnectionError` class from exceptions.py, which is what the spec's
taxonomy calls `ConnectionFailure`.  This refutes the claim that every
network/transport failure raises `ConnectionFailure`. -/
theorem C5_login_failure_classification_counterexample :
    login sampleState 0 "a@x.com" "pw" (.connectError "Connection refused")
      = .error (.authenticationError
          "Failed to connect to authentication server: Connection refused",
          sampleState) ∧
    is_connection_failure (.authenticationError
        "Failed to connect to authentication server: Connection refused")
      = false :=
  ⟨rfl, rfl⟩

/-- C5 (amended): every failure of `login` raises `AuthenticationError`:
each of the three caught transport failures (connection error, timeout,
other HTTP transport error) raises `AuthenticationError` with a message
identifying the transport problem, and every non-200 response, as well as
every 200 response whose parsed body lacks a (truthy) token field, raises
`AuthenticationError` carrying the server's message when one is available
and a default naming the status otherwise. -/
theorem C5_login_failure_classification (s : AuthState) (now : Int)
    (email password m : String) (r : LoginResponse) :
    (login s now email password (.connectError m)
      = .error (.authenticationError
          ("Failed to connect to authentication server: " ++ m), s)) ∧
    (login s now email password (.timeoutError m)
      = .error (.authenticationError
          ("Authentication request timeout: " ++ m), s)) ∧
    (login s now email password (.httpError m)
      = .error (.authenticationError
          ("HTTP error during authentication: " ++ m), s)) ∧
    (r.status ≠ 200 → r.bodyParses = true → r.message = some m →
      login s now email password (.response r)
        = .error (.authenticationError ("Login failed: " ++ m), s)) ∧
    (r.status ≠ 200 → r.bodyParses = true → r.message = none →
      login s now email password (.response r)
        = .error (.authenticationError
            ("Login failed: Login failed with status " ++ toString r.status),
            s)) ∧
    (r.status ≠ 200 → r.bodyParses = false →
      login s now email password (.response r)
        = .error (.authenticationError
            ("Login failed: Login failed with status " ++ toString r.status),
            s)) ∧
    (r.status = 200 → r.bodyParses = true →
      py_truthy_opt_str r.token = false →
      login s now email password (.response r)
        = .error (.authenticationError
            "No token received from login response", s)) := by
  refine ⟨rfl, rfl, rfl, fun h1 h2 h3 => ?_, fun h1 h2 h3 => ?_,
    fun h1 h2 => ?_, fun h1 h2 h3 => ?_⟩
  · simp [login, h1, h2, h3]
  · simp [login, h1, h2, h3]
    rw [← String.append_assoc]
    rfl
  · simp [login, h1, h2]
    rw [← String.append_assoc]
    rfl
  · simp [login, h1, h2, h3]

theorem C5_login_failure_classification_witness :
    login sampleState 0 "a@x.com" "pw" (.response resp401)
      = .error (.authenticationError
          "Login failed: Invalid email or password", sampleState) :=
  (C5_login_failure_classification sampleState 0 "a@x.com" "pw"
      "Invalid email or password" resp401).2.2.2.1 (by decide) rfl rfl

/-- C6 (counterexample): the code computes the expiry with the Python test
`if exp:`, so a present, parseable `exp` claim equal to 0 is treated as
absent and the expiry falls back to now + 1 hour (here 1000 + 3600 = 4600)
instead of being set from the claim (timestamp 0).  This refutes the claim
that the expiry is set from `exp` whenever it is present and parseable. -/
theorem C6_login_success_counterexample :
    login sampleState 1000 "a@x.com" "pw" (.response respExpZero)
      = .ok { token := "T", user := .pyDict [], expiresAt := some 4600,
              state := { sampleState with
                         authToken := some "T",
                         credentials := some ("a@x.com", "pw"),
                         tokenExpiry := some 4600 },
              invocations := [], signalSent := true } ∧
    (4600 : Int) ≠ 0 :=
  ⟨rfl, by decide⟩

/-- C6 (amended): on every successful login (a 200 response with a parseable
body carrying a truthy token) the token and the credential pair are stored,
the expiry is set from the `exp` claim when it is present, nonzero and
parseable and to now + 1 hour otherwise, the call returns the token, user
and expiry, every registered observer is invoked synchronously exactly once
with the new token in registration order — an observer that throws is
logged and skipped, never preventing the remaining observers or the
completion signal — and the completion signal is sent. -/
theorem C6_login_success_effects (s : AuthState) (now : Int)
    (email password t : String) (r : LoginResponse) (hs : r.status = 200)
    (hb : r.bodyParses = true) (ht : r.token = some t) (hne : t ≠ "") :
    login s now email password (.response r)
      = .ok { token := t, user := r.user,
              expiresAt := some (login_expiry now r.exp r.expParses),
              state := { s with
                         authToken := some t,
                         credentials := some (email, password),
                         tokenExpiry :=
                           some (login_expiry now r.exp r.expParses) },
              invocations := s.authCallbacks.map (fun c => (c.id, t)),
              signalSent := true } ∧
    (∀ e : Int, r.exp = some e → e ≠ 0 → r.expParses = true →
      login_expiry now r.exp r.expParses = e) ∧
    (∀ e : Int, r.exp = some e → e ≠ 0 → r.expParses = false →
      login_expiry now r.exp r.expParses = now + 3600) ∧
    (r.exp = none → login_expiry now r.exp r.expParses = now + 3600) ∧
    (∀ cbs : List Callback, ∀ tok : String,
      notify_auth_renewed cbs tok = cbs.map (fun c => (c.id, tok))) := by
  refine ⟨?_, fun e he h0 hp => ?_, fun e he h0 hp => ?_, fun he => ?_,
    fun cbs tok => notify_auth_renewed_eq_map cbs tok⟩
  · simp [login, hs, hb, ht, py_truthy_opt_str, hne,
      notify_auth_renewed_eq_map]
  · simp [login_expiry, he, h0, hp]
  · simp [login_expiry, he, h0, hp]
  · simp [login_expiry, he]

theorem C6_login_success_effects_witness :
    login { sampleState with authCallbacks := [⟨1, true⟩, ⟨2, false⟩] } 0
        "a@x.com" "pw" (.response respOk)
      = .ok { token := "T", user := .pyDict [], expiresAt := some 9999,
              state := { sampleState with
                         authToken := some "T",
                         tokenExpiry := some 9999,
                         credentials := some ("a@x.com", "pw"),
                         authCallbacks := [⟨1, true⟩, ⟨2, false⟩] },
              invocations := [(1, "T"), (2, "T")], signalSent := true } :=
  (C6_login_success_effects
      { sampleState with authCallbacks := [⟨1, true⟩, ⟨2, false⟩] } 0
      "a@x.com" "pw" "T" respOk rfl rfl rfl (by decide)).1

/-- C7: `_login_with_stored_credentials` with no stored credential returns
false immediately with zero login attempts (no network I/O); with a stored
credential it makes exactly one login attempt, and on any failure discards
the stored credential and returns false, so that a repeated call after the
failed fallback makes no further login attempt; on success it returns
true. -/
theorem C7_stored_credentials_fallback (s : AuthState) (now now2 : Int)
    (out out2 : HttpOutcome) :
    (s.credentials = none →
      login_with_stored_credentials s now out = (false, s, 0)) ∧
    (∀ email password exc s1,
      s.credentials = some (email, password) →
      login s now email password out = .error (exc, s1) →
      login_with_stored_credentials s now out
        = (false, clear_credentials s1, 1) ∧
      (clear_credentials s1).credentials = none ∧
      login_with_stored_credentials (clear_credentials s1) now2 out2
        = (false, clear_credentials s1, 0)) ∧
    (∀ email password r,
      s.credentials = some (email, password) →
      login s now email password out = .ok r →
      login_with_stored_credentials s now out = (true, r.state, 1)) := by
  refine ⟨fun h => ?_, fun email password exc s1 hc hl => ?_,
    fun email password r hc hl => ?_⟩
  · simp [login_with_stored_credentials, h]
  · refine ⟨?_, rfl, ?_⟩
    · simp [login_with_stored_credentials, hc, hl]
    · simp [login_with_stored_credentials, clear_credentials]
  · simp [login_with_stored_credentials, hc, hl]

theorem C7_stored_credentials_fallback_witness :
    login_with_stored_credentials
        { sampleState with credentials := some ("a@x.com", "pw") } 0
        (.connectError "refused")
      = (false, sampleState, 1) ∧
    login_with_stored_credentials sampleState 0 (.connectError "refused")
      = (false, sampleState, 0) := by
  have h := (C7_stored_credentials_fallback
      { sampleState with credentials := some ("a@x.com", "pw") } 0 0
      (.connectError "refused") (.connectError "refused")).2.1
      "a@x.com" "pw"
      (.authenticationError
        "Failed to connect to authentication server: refused")
      { sampleState with credentials := some ("a@x.com", "pw") } rfl rfl
  exact ⟨h.1, h.2.2⟩

/-- C8: every POST /login submission gets a JSON `{success, message}` reply
and never an exception out of the request loop: a malformed body, missing
email or password, a missing auth manager, and a login attempt that raises
each degrade to a failure response (the handler's `except Exception` block
catches every raise), a successful attempt gets a success response, and a
failed authentication attempt leaves `browser_auth_in_progress`
unchanged — the flow stays active so the user may retry. -/
theorem C8_login_handler_total (st : AuthState) (hasAM : Bool)
    (inp : PostInput) (now : Int) (out : HttpOutcome) :
    (∀ m, inp = .malformed m →
      handle_login st hasAM inp now out
        = ({ success := false, message := "Login error: " ++ m }, st)) ∧
    (∀ email password collection, inp = .form email password collection →
      (email = "" ∨ password = "") →
      handle_login st hasAM inp now out
        = ({ success := false,
             message := "Email and password are required" }, st)) ∧
    (∀ email password collection, inp = .form email password collection →
      ¬(email = "" ∨ password = "") → hasAM = false →
      handle_login st hasAM inp now out
        = ({ success := false,
             message := "Authentication manager not available" }, st)) ∧
    (∀ email password collection exc s1,
      inp = .form email password collection →
      ¬(email = "" ∨ password = "") → hasAM = true →
      login (update_collection_slug st collection) now email password out
        = .error (exc, s1) →
      handle_login st hasAM inp now out
        = ({ success := false, message := "Login error: " ++ exc_str exc },
           s1) ∧
      s1.browserAuthInProgress = st.browserAuthInProgress) ∧
    (∀ email password collection r,
      inp = .form email password collection →
      ¬(email = "" ∨ password = "") → hasAM = true →
      login (update_collection_slug st collection) now email password out
        = .ok r →
      handle_login st hasAM inp now out
        = ({ success := true, message := "Authentication successful" },
           r.state)) := by
  refine ⟨fun m h => ?_, fun e p c h hc => ?_, fun e p c h hc hAM => ?_,
    fun e p c exc s1 h hc hAM hl => ?_, fun e p c r h hc hAM hl => ?_⟩
  · subst h; rfl
  · subst h; simp [handle_login, handle_login_inner, hc]
  · subst h; subst hAM; simp [handle_login, handle_login_inner, hc]
  · subst h; subst hAM
    constructor
    · simp [handle_login, handle_login_inner, hc, hl]
    · have hse := login_error_eq_state _ _ _ _ _ _ _ hl
      subst hse
      exact update_collection_slug_browserAuthInProgress st c
  · subst h; subst hAM; simp [handle_login, handle_login_inner, hc, hl]

theorem C8_login_handler_total_witness :
    handle_login sampleState true (.malformed "bad Content-Length") 0
        (.connectError "refused")
      = ({ success := false, message := "Login error: bad Content-Length" },
         sampleState) ∧
    (handle_login { sampleState with browserAuthInProgress := true } true
        (.form "a@x.com" "pw" "users") 0
        (.response resp401)).2.browserAuthInProgress = true := by
  constructor
  · exact (C8_login_handler_total sampleState true
      (.malformed "bad Content-Length") 0 (.connectError "refused")).1
      "bad Content-Length" rfl
  · have h := (C8_login_handler_total
        { sampleState with browserAuthInProgress := true } true
        (.form "a@x.com" "pw" "users") 0 (.response resp401)).2.2.2.1
        "a@x.com" "pw" "users"
        (.authenticationError "Login failed: Invalid email or password")
        (update_collection_slug
          { sampleState with browserAuthInProgress := true } "users")
        rfl (by simp) rfl rfl
    rw [h.1]
    exact h.2

/-- C9: `build_where_params` flattens each `where` entry
`{field: {op: value}}` to the key `where[field][op]` carrying that value
(complex values JSON-encoded) and each bare entry `{field: value}` to
`where[field][equals]`; `build_nested_params` flattens each
selection/population entry to `select[field]` or `select[field][nested]`;
and every Boolean among these parameter values renders as the lowercase
string `true`/`false` (in the nested builder itself, and for the `where`
builder in the query-string rendering modelled from the spec by
`render_param_value`). -/
theorem C9_query_flattening (w nested params : List (String × PyVal))
    (pre paramType : String) (b : Bool) :
    build_where_params w params pre
      = params ++ (w.map (spec_where_flatten pre)).flatten ∧
    build_nested_params nested paramType params
      = params ++ (nested.map (spec_nested_flatten paramType)).flatten ∧
    render_param_value (.pyBool b) = (if b then "true" else "false") ∧
    lower_bool_str (.pyBool b) = .pyStr (if b then "true" else "false") :=
  ⟨build_where_params_eq w params pre,
    build_nested_params_eq nested paramType params, rfl, rfl⟩

theorem C9_query_flattening_witness :
    build_where_params
        [("status", .pyDict [("equals", .pyStr "published"),
                             ("visible", .pyBool true)]),
         ("title", .pyStr "x")] [] "where"
      = [("where[status][equals]", .pyStr "published"),
         ("where[status][visible]", .pyBool true),
         ("where[title][equals]", .pyStr "x")] ∧
    build_nested_params
        [("author", .pyDict [("name", .pyBool true)]),
         ("slug", .pyBool false)] "select" []
      = [("select[author][name]", .pyStr "true"),
         ("select[slug]", .pyStr "false")] ∧
    render_param_value (.pyBool true) = "true" := by
  refine ⟨?_, ?_, ?_⟩
  · exact (C9_query_flattening
      [("status", .pyDict [("equals", .pyStr "published"),
                           ("visible", .pyBool true)]),
       ("title", .pyStr "x")] [] [] "where" "select" true).1.trans rfl
  · exact (C9_query_flattening []
      [("author", .pyDict [("name", .pyBool true)]),
       ("slug", .pyBool false)] [] "where" "select" true).2.1.trans rfl
  · exact (C9_query_flattening [] [] [] "where" "select" true).2.2.1.trans rfl

/-- C10: `ensure_valid_token` returns exactly the Python truthiness of
`auth_token` (true iff a non-empty token is set), mutates nothing, never
consults `token_expiry` (the result is invariant under changing it), and in
particular returns true on a state whose token `is_token_expired` reports
as expired. -/
theorem C10_ensure_valid_token_token_only (s : AuthState) :
    ((ensure_valid_token s).1 = py_truthy_opt_str s.authToken) ∧
    ((ensure_valid_token s).1 = true ↔
      ∃ t, s.authToken = some t ∧ t ≠ "") ∧
    ((ensure_valid_token s).2 = s) ∧
    (∀ e : Option Int,
      (ensure_valid_token { s with tokenExpiry := e }).1
        = (ensure_valid_token s).1) ∧
    ((ensure_valid_token
        { s with authToken := some "T", tokenExpiry := some 0 }).1
      = true) ∧
    (∀ now : Int, now ≥ -300 →
      is_token_expired now
          { s with authToken := some "T", tokenExpiry := some 0 }
        = true) := by
  refine ⟨rfl, ?_, rfl, fun e => rfl, rfl, fun now h => ?_⟩
  · cases h : s.authToken with
    | none => simp [ensure_valid_token, py_truthy_opt_str, h]
    | some t => simp [ensure_valid_token, py_truthy_opt_str, h]
  · simp only [is_token_expired]
    simp
    omega

theorem C10_ensure_valid_token_token_only_witness :
    (ensure_valid_token
        { sampleState with authToken := some "T", tokenExpiry := some 0 }).1
      = true ∧
    is_token_expired 500
        { sampleState with authToken := some "T", tokenExpiry := some 0 }
      = true :=
  ⟨(C10_ensure_valid_token_token_only sampleState).2.2.2.2.1,
    (C10_ensure_valid_token_token_only sampleState).2.2.2.2.2 500
      (by norm_num)⟩

end PayloadMcp
